import Mathlib

/-!
Verification of `dump.py` from the frida-ios-dump repository: a shallow
embedding, in Lean 4, of the dump orchestration pipeline (transfer
coordinator, archive assembler, session manager, completion signal and
path helpers), together with theorems settling the specification claims.

Python strings are modelled as Lean `String`, Python dicts (which keep
insertion order) as association lists, the `threading.Event` completion
flag as a `Bool` field of the run state, and fallible external calls
(SCP pull, `shutil.move`, `zip`, `spawn`, `attach`) as oracle parameters
so that the control flow of the source is reproduced exactly.
-/

/-- Index of the first occurrence of `pat` in `s` (lists of characters),
or `none` when `pat` does not occur: the behaviour of Python `str.find`
restricted to a successful search. -/
def findSub : List Char → List Char → Option Nat
  | [], pat => if pat.isPrefixOf ([] : List Char) then some 0 else none
  | c :: rest, pat =>
      if pat.isPrefixOf (c :: rest) then some 0
      else (findSub rest pat).map (· + 1)

/-- `pat` occurs in `s` starting at index `i`. -/
def occursAt (s pat : List Char) (i : Nat) : Prop :=
  pat.isPrefixOf (s.drop i)

instance (s pat : List Char) (i : Nat) : Decidable (occursAt s pat i) := by
  unfold occursAt; infer_instance

/-- Number of occurrences of `pat` in `s` (indices where `pat` starts). -/
def countOccur (s pat : List Char) : Nat :=
  ((List.range (s.length + 1)).filter (fun i => pat.isPrefixOf (s.drop i))).length

/-- Embeds Python `s.find(pat)`: the lowest index where `pat` occurs in
`s`, and `-1` when it does not occur. -/
def pyFind (s pat : String) : Int :=
  match findSub s.data pat.data with
  | some n => (n : Int)
  | none => -1

/-- Embeds `extract_path` (dump.py lines 135-138):
`index = origin_path.find(".app/"); return origin_path[index + 5:]`.
Since `find` returns at least `-1`, the slice start `index + 5` is at
least `4`, so the Python slice is exactly a `drop`. -/
def extract_path (origin_path : String) : String :=
  String.mk (origin_path.data.drop (pyFind origin_path ".app/" + 5).toNat)

/-- Embeds `os.path.basename` on POSIX paths: everything after the last
slash (`p[p.rfind(chr(47)) + 1:]`). -/
def basename (p : String) : String :=
  String.mk ((p.data.reverse.takeWhile (fun c => c ≠ '/')).reverse)

/-- Embeds `os.path.join` for two POSIX components: `b` if `b` is
absolute, otherwise `a` and `b` glued with exactly one slash. The
leading and trailing slash tests are written on the character list so
that they compute by kernel reduction. -/
def pyJoin (a b : String) : String :=
  if ['/'].isPrefixOf b.data then b
  else if a = "" ∨ ['/'].isPrefixOf a.data.reverse then a ++ b
  else a ++ "/" ++ b

-- Basic lemmas about `findSub`.

theorem findSub_eq_zero_of_isPrefixOf {s pat : List Char}
    (h : pat.isPrefixOf s) : findSub s pat = some 0 := by
  cases s with
  | nil => simp [findSub, h]
  | cons c rest => simp [findSub, h]

theorem findSub_eq_none_of_not_occurs {s pat : List Char}
    (h : ∀ i, ¬ occursAt s pat i) : findSub s pat = none := by
  induction s with
  | nil =>
    have h0 := h 0
    simp [occursAt] at h0
    simp [findSub, h0]
  | cons c rest ih =>
    have h0 := h 0
    simp [occursAt] at h0
    have hrest : ∀ i, ¬ occursAt rest pat i := by
      intro i hi
      exact h (i + 1) (by simpa [occursAt] using hi)
    simp [findSub, h0, ih hrest]

theorem findSub_eq_some_of_least {s pat : List Char} {i : Nat}
    (hocc : occursAt s pat i) (hleast : ∀ j, occursAt s pat j → i ≤ j) :
    findSub s pat = some i := by
  induction s generalizing i with
  | nil =>
    have : pat.isPrefixOf ([] : List Char) := by
      simpa [occursAt] using hocc
    have h0 : occursAt ([] : List Char) pat 0 := by simpa [occursAt] using this
    have hi0 : i = 0 := Nat.le_antisymm (hleast 0 h0) (Nat.zero_le i)
    subst hi0
    simp [findSub, this]
  | cons c rest ih =>
    by_cases hpre : pat.isPrefixOf (c :: rest)
    · have h0 : occursAt (c :: rest) pat 0 := by simpa [occursAt] using hpre
      have hi0 : i = 0 := Nat.le_antisymm (hleast 0 h0) (Nat.zero_le i)
      subst hi0
      simp [findSub, hpre]
    · have hi : i ≠ 0 := by
        intro h0
        subst h0
        exact hpre (by simpa [occursAt] using hocc)
      obtain ⟨i, rfl⟩ := Nat.exists_eq_succ_of_ne_zero hi
      have hocc' : occursAt rest pat i := by
        simpa [occursAt, List.drop_succ_cons] using hocc
      have hleast' : ∀ j, occursAt rest pat j → i ≤ j := by
        intro j hj
        have : occursAt (c :: rest) pat (j + 1) := by
          simpa [occursAt, List.drop_succ_cons] using hj
        exact Nat.le_of_succ_le_succ (hleast (j + 1) this)
      simp [findSub, hpre, ih hocc' hleast']

theorem occursAt_length_le {s pat : List Char} {i : Nat}
    (hne : pat ≠ []) (h : occursAt s pat i) : i ≤ s.length := by
  by_contra hlt
  push_neg at hlt
  have hdrop : s.drop i = [] := List.drop_eq_nil_of_le (Nat.le_of_lt hlt)
  have := h
  rw [occursAt, hdrop] at this
  exact hne (List.prefix_nil.mp (List.isPrefixOf_iff_prefix.mp this))

/-! Python dict with insertion order: an association list. Assigning to
an existing key overwrites its value in place; a new key is appended. -/

/-- Embeds `d[k] = v` on a Python dict kept as an insertion-ordered
association list. -/
def dictInsert (d : List (String × String)) (k v : String) :
    List (String × String) :=
  if d.any (fun p => p.1 = k) then
    d.map (fun p => if p.1 = k then (k, v) else p)
  else d ++ [(k, v)]

/-- Embeds `d[k]` lookup (`some` value, or `none` for a `KeyError`). -/
def dictLookup (d : List (String × String)) (k : String) : Option String :=
  (d.find? (fun p => p.1 = k)).map (fun p => p.2)

/-- A notification payload from the instrumentation agent: the optional
keys `dump` (with the accompanying `path` field), `app` and `done`
checked by `on_message` (dump.py lines 87-98). -/
structure Payload where
  dump : Option (String × String)
  app : Option String
  done : Bool
deriving DecidableEq, Repr

/-- A message from the agent; `on_message` acts only when the key
`payload` is present. -/
structure Message where
  payload : Option Payload
deriving DecidableEq, Repr

/-- Embeds `scp_transfer` (dump.py lines 103-121). The oracle `pull`
gives the outcome of `scp.get`; a `CalledProcessError` from the chmod
step and every other exception are caught inside the function by the
two `except` clauses, so the function always returns normally. The
returned value is the error message printed by the handler, if any,
making the catch-and-log behaviour observable. -/
def scp_transfer (pull : Except String Unit) : Option String :=
  match pull with
  | .ok _ => none
  | .error e => some e

/-- State of the transfer coordinator: `FILE_DICT` (the path mapping
table, dump.py line 31) and the `FINISHED` completion event
(dump.py line 33) as a boolean flag. -/
structure DumpState where
  fileDict : List (String × String)
  finished : Bool
deriving DecidableEq, Repr

/-- Embeds `on_message` (dump.py lines 75-100). `pull` is the oracle
giving the SCP outcome for each remote source path. For a `dump` entry
the transfer runs and then, unconditionally (since `scp_transfer`
swallows its exceptions), `FILE_DICT[basename(dump)] =
extract_path(path)` is recorded; for an `app` entry the recursive
transfer runs and `FILE_DICT` gets the sentinel entry `app ->
basename(app)`; a `done` key sets `FINISHED`. -/
def on_message (pull : String → Except String Unit) (st : DumpState)
    (msg : Message) : DumpState :=
  match msg.payload with
  | none => st
  | some payload =>
    let st1 :=
      match payload.dump with
      | some (dumpPath, origPath) =>
        let _log := scp_transfer (pull dumpPath)
        { st with fileDict :=
            dictInsert st.fileDict (basename dumpPath) (extract_path origPath) }
      | none => st
    let st2 :=
      match payload.app with
      | some appPath =>
        let _log := scp_transfer (pull appPath)
        { st1 with fileDict :=
            dictInsert st1.fileDict "app" (basename appPath) }
      | none => st1
    if payload.done then { st2 with finished := true } else st2

/-- Processes a sequence of agent messages in delivery order. -/
def processMsgs (pull : String → Except String Unit) (st : DumpState)
    (msgs : List Message) : DumpState :=
  msgs.foldl (on_message pull) st

/-- Observable outcome of `generate_ipa`: the moves performed by
`shutil.move`, whether the `zip` step ran to completion, whether the
staging directory was removed, and whether the `except` branch ran
(which prints the error and sets `FINISHED`). -/
structure IpaResult where
  moves : List (String × String)
  zipped : Bool
  removedStaging : Bool
  error : Bool
deriving DecidableEq, Repr

/-- The move loop of `generate_ipa` (dump.py lines 61-65): for every
entry other than the sentinel key `app`, move
`path/key` to `path/app_name/value`; the first failing move raises out
of the loop. Returns the moves completed and whether the loop finished
without an exception. -/
def runMoves (moveOk : String → String → Bool) (path app_name : String) :
    List (String × String) → List (String × String) × Bool
  | [] => ([], true)
  | (k, v) :: rest =>
    if k = "app" then runMoves moveOk path app_name rest
    else
      let src := pyJoin path k
      let dest := pyJoin (pyJoin path app_name) v
      if moveOk src dest then
        let r := runMoves moveOk path app_name rest
        ((src, dest) :: r.1, r.2)
      else ([], false)

/-- Embeds `generate_ipa` (dump.py lines 53-72). Looking up the sentinel
key `app` raises `KeyError` when absent; that exception, a failing
`shutil.move` and a failing `zip` invocation are all caught by the one
`except` clause, which logs and sets `FINISHED` (reported here through
the `error` field). On success the staging directory is removed and
`FINISHED` is left untouched. The oracles `moveOk` and `zipOk` give the
outcomes of `shutil.move` and `subprocess.check_call`. -/
def generate_ipa (moveOk : String → String → Bool) (zipOk : Bool)
    (path : String) (fileDict : List (String × String)) : IpaResult :=
  match dictLookup fileDict "app" with
  | none => { moves := [], zipped := false, removedStaging := false, error := true }
  | some app_name =>
    let r := runMoves moveOk path app_name fileDict
    if r.2 then
      if zipOk then
        { moves := r.1, zipped := true, removedStaging := true, error := false }
      else
        { moves := r.1, zipped := false, removedStaging := false, error := true }
    else { moves := r.1, zipped := false, removedStaging := false, error := true }

/-- An event of a run that can touch the `FINISHED` flag: a notification
delivered to `on_message`, a `generate_ipa` invocation (whose `except`
branch sets the flag), or the unconditional `FINISHED.set()` at the end
of `main` (dump.py line 263). -/
inductive RunEvent where
  | notify (pull : String → Except String Unit) (msg : Message)
  | assemble (moveOk : String → String → Bool) (zipOk : Bool) (path : String)
  | processEnd

/-- One step of the run: how each event transforms the shared state.
`generate_ipa` sets `FINISHED` exactly when its `except` branch runs and
never clears it; `processEnd` sets it unconditionally. -/
def runStep (st : DumpState) : RunEvent → DumpState
  | .notify pull msg => on_message pull st msg
  | .assemble moveOk zipOk path =>
    let r := generate_ipa moveOk zipOk path st.fileDict
    { st with finished := st.finished || r.error }
  | .processEnd => { st with finished := true }

/-- A whole run: the fold of `runStep` over the event sequence. -/
def runSteps (st : DumpState) (evs : List RunEvent) : DumpState :=
  evs.foldl runStep st

/-- Embeds the `progress` closure defined inside `on_message`
(dump.py lines 78-85). The mutable cell `last_sent` holds the baseline;
one callback invocation displays the increment `sent - last_sent` via
`t.update` and stores `0` when the transfer is complete
(`size == sent`), else `sent`. Returns (displayed increment, new
baseline). -/
def progress (size sent last_sent : Int) : Int × Int :=
  (sent - last_sent, if size = sent then 0 else sent)

/-! The session manager (`open_target_app`). -/

/-- An application descriptor from device enumeration: process id
(0 when not running), display name, bundle identifier. -/
structure AppDescriptor where
  pid : Nat
  name : String
  identifier : String
deriving DecidableEq, Repr

/-- The scan loop of `open_target_app` (dump.py lines 146-148): starting
from `pid, display_name, bundle_identifier = (empty, empty, empty)`,
every descriptor whose identifier or name equals `app_id` overwrites
all three variables, so the last match wins. The initial Python `pid`
is the empty string, modelled as `none`; a matched pid is `some`. -/
def selectApp (apps : List AppDescriptor) (app_id : String) :
    Option Nat × String × String :=
  apps.foldl
    (fun acc app =>
      if app_id = app.identifier ∨ app_id = app.name then
        (some app.pid, app.name, app.identifier)
      else acc)
    (none, "", "")

/-- The last descriptor in `apps` matching `app_id` by identifier or
name, if any: the specification notion of last-match-wins. -/
def lastMatch (app_id : String) : List AppDescriptor → Option AppDescriptor
  | [] => none
  | a :: rest =>
    match lastMatch app_id rest with
    | some b => some b
    | none =>
      if app_id = a.identifier ∨ app_id = a.name then some a else none

/-- Embeds Python truthiness of the `pid` variable (dump.py line 151):
the initial empty string and a pid of `0` are falsy. -/
def pidTruthy : Option Nat → Bool
  | none => false
  | some p => p ≠ 0

/-- Embeds `open_target_app` (dump.py lines 141-160). `spawn` and
`attach` are oracles for `device.spawn` and `device.attach`; the session
type is abstract in `σ`. The `try` block: with no truthy pid, spawn the
resolved bundle identifier, then attach; otherwise attach directly. Any
exception is caught and logged, leaving `session` at whatever was last
assigned — `none` when spawn or attach raised. (`device.resume` runs
after `session` is already assigned and its outcome cannot change the
returned triple, so it is not a parameter.) Returns
`(session, display_name, bundle_identifier)`. -/
def open_target_app {σ : Type} (spawn : String → Except String Nat)
    (attach : Nat → Except String σ) (apps : List AppDescriptor)
    (app_id : String) : Option σ × String × String :=
  let sel := selectApp apps app_id
  let session : Option σ :=
    if pidTruthy sel.1 then
      match attach (sel.1.getD 0) with
      | .ok s => some s
      | .error _ => none
    else
      match spawn sel.2.2 with
      | .error _ => none
      | .ok p =>
        match attach p with
        | .ok s => some s
        | .error _ => none
  (session, sel.2.1, sel.2.2)

/-- Whether the `try` block of `open_target_app` raises during spawn or
attach, for a given resolved pid and bundle identifier. -/
def spawnAttachFails {σ : Type} (spawn : String → Except String Nat)
    (attach : Nat → Except String σ) (pid : Option Nat) (bid : String) :
    Bool :=
  if pidTruthy pid then
    match attach (pid.getD 0) with
    | .ok _ => false
    | .error _ => true
  else
    match spawn bid with
    | .error _ => true
    | .ok p =>
      match attach p with
      | .ok _ => false
      | .error _ => true

/-! Scenario constants for the concrete notification sequence of the
specification: a bundle notification for `Foo.app`, a binary
notification for `Foo.plist`, and the completion notification. -/

/-- Bundle notification: payload with key `app` = `/var/x/Foo.app`. -/
def fooBundleMsg : Message := ⟨some ⟨none, some "/var/x/Foo.app", false⟩⟩

/-- Binary notification: payload with key `dump` and `path` both
`/var/x/Foo.app/Foo.plist`. -/
def fooBinaryMsg : Message :=
  ⟨some ⟨some ("/var/x/Foo.app/Foo.plist", "/var/x/Foo.app/Foo.plist"),
    none, false⟩⟩

/-- Completion notification: payload with key `done`. -/
def doneMsg : Message := ⟨some ⟨none, none, true⟩⟩

/-- Pull oracle where every SCP transfer succeeds. -/
def allOkPull : String → Except String Unit := fun _ => .ok ()

-- Helper lemmas.

theorem selectApp_foldl (t : String) (l : List AppDescriptor) :
    ∀ acc : Option Nat × String × String,
      l.foldl
        (fun acc app =>
          if t = app.identifier ∨ t = app.name then
            (some app.pid, app.name, app.identifier)
          else acc) acc
      = match lastMatch t l with
        | none => acc
        | some a => (some a.pid, a.name, a.identifier) := by
  induction l with
  | nil => intro acc; simp [lastMatch]
  | cons a rest ih =>
    intro acc
    simp only [List.foldl_cons]
    rw [ih]
    cases hlm : lastMatch t rest with
    | some b => simp [lastMatch, hlm]
    | none =>
      by_cases hm : t = a.identifier ∨ t = a.name <;>
        simp [lastMatch, hlm, hm]

theorem selectApp_eq_lastMatch (apps : List AppDescriptor) (t : String) :
    selectApp apps t
      = match lastMatch t apps with
        | none => (none, "", "")
        | some a => (some a.pid, a.name, a.identifier) :=
  selectApp_foldl t apps (none, "", "")

theorem on_message_finished_mono (pull : String → Except String Unit)
    (st : DumpState) (msg : Message) (h : st.finished = true) :
    (on_message pull st msg).finished = true := by
  unfold on_message
  match msg with
  | ⟨none⟩ => exact h
  | ⟨some ⟨d, a, dn⟩⟩ =>
    cases d <;> cases a <;> cases dn <;> simp [h]

theorem runStep_finished_mono (st : DumpState) (ev : RunEvent)
    (h : st.finished = true) : (runStep st ev).finished = true := by
  cases ev with
  | notify pull msg => exact on_message_finished_mono pull st msg h
  | assemble moveOk zipOk path => simp [runStep, h]
  | processEnd => simp [runStep]

-- Claims C4 and C9: the relative-path derivation.

/-- Claim C4: for every device path containing exactly one `.app/`
segment (an occurrence at index `i`, and a total occurrence count of
one), `extract_path` returns exactly the suffix of the path strictly
after that segment, that is, the characters from index `i + 5` on. -/
theorem claim_C4 (s : String) (i : Nat)
    (hocc : occursAt s.data ".app/".data i)
    (hone : countOccur s.data ".app/".data = 1) :
    extract_path s = String.mk (s.data.drop (i + 5)) := by
  have hne : ".app/".data ≠ ([] : List Char) := by decide
  have hiLen : i ≤ s.data.length := occursAt_length_le hne hocc
  obtain ⟨x, hx⟩ := List.length_eq_one.mp hone
  have hmem : ∀ j, occursAt s.data ".app/".data j →
      j ∈ (List.range (s.data.length + 1)).filter
        (fun k => ".app/".data.isPrefixOf (s.data.drop k)) := by
    intro j hj
    refine List.mem_filter.mpr ⟨List.mem_range.mpr ?_, hj⟩
    exact Nat.lt_succ_of_le (occursAt_length_le hne hj)
  have huniq : ∀ j, occursAt s.data ".app/".data j → j = i := by
    intro j hj
    have hj' := hmem j hj
    have hi' := hmem i hocc
    rw [countOccur, hx] at *
    rw [hx] at hj' hi'
    simp only [List.mem_singleton] at hj' hi'
    omega
  have hfind : findSub s.data ".app/".data = some i :=
    findSub_eq_some_of_least hocc
      (fun j hj => Nat.le_of_eq (huniq j hj).symm)
  unfold extract_path pyFind
  rw [hfind]
  have htn : ((i : Int) + 5).toNat = i + 5 := by omega
  rw [htn]

/-- Claim C9: for every input path with no `.app/` substring,
`extract_path` does not raise (it is a total function here), `find`
returns `-1`, and the result is the input with its first four
characters removed. -/
theorem claim_C9 (s : String)
    (h : countOccur s.data ".app/".data = 0) :
    pyFind s ".app/" = -1 ∧ extract_path s = String.mk (s.data.drop 4) := by
  have hno : ∀ j, ¬ occursAt s.data ".app/".data j := by
    intro j hj
    have hne : ".app/".data ≠ ([] : List Char) := by decide
    have hjLen : j ≤ s.data.length := occursAt_length_le hne hj
    have hjmem : j ∈ (List.range (s.data.length + 1)).filter
        (fun k => ".app/".data.isPrefixOf (s.data.drop k)) :=
      List.mem_filter.mpr ⟨List.mem_range.mpr (Nat.lt_succ_of_le hjLen), hj⟩
    rw [countOccur, List.length_eq_zero] at h
    rw [h] at hjmem
    exact List.not_mem_nil j hjmem
  have hfind : findSub s.data ".app/".data = none :=
    findSub_eq_none_of_not_occurs hno
  constructor
  · unfold pyFind
    rw [hfind]
  · unfold extract_path pyFind
    rw [hfind]
    rfl

/-- Witness for claim C4 at the concrete path
`/var/x/Foo.app/Foo.plist`, whose unique `.app/` occurrence starts at
index 10. -/
theorem claim_C4_witness :
    extract_path "/var/x/Foo.app/Foo.plist"
      = String.mk ("/var/x/Foo.app/Foo.plist".data.drop 15) :=
  claim_C4 "/var/x/Foo.app/Foo.plist" 10 (by decide) (by decide)

/-- Witness for claim C9 at the concrete path `/varword`, which has no
`.app/` substring. -/
theorem claim_C9_witness :
    pyFind "/varword" ".app/" = -1 ∧
      extract_path "/varword" = String.mk ("/varword".data.drop 4) :=
  claim_C9 "/varword" (by decide)

-- Claim C1: a failed pull and the path mapping table.

/-- Counterexample to claim C1 as stated: a FileReady binary
notification for `/var/x/Foo.app/Foo.bin` whose pull raises is caught
and logged, yet the entry `Foo.bin -> Foo.bin` IS registered in the
path mapping table — the claim asserts no entry is registered. -/
theorem claim_C1_counterexample :
    scp_transfer ((fun _ => Except.error "socket timeout" :
        String → Except String Unit) "/var/x/Foo.app/Foo.bin")
      = some "socket timeout" ∧
    dictLookup (on_message (fun _ => Except.error "socket timeout")
        ⟨[], false⟩
        ⟨some ⟨some ("/var/x/Foo.app/Foo.bin", "/var/x/Foo.app/Foo.bin"),
          none, false⟩⟩).fileDict "Foo.bin"
      ≠ none := by
  constructor
  · rfl
  · decide

/-- Claim C1, amended: when the pull for a FileReady binary notification
raises, the exception is caught and logged inside `scp_transfer`, the
run is not aborted (processing yields a state and continues with the
rest of the sequence), and the entry `basename(dump) ->
extract_path(path)` is registered in the path mapping table anyway —
it is not omitted — so subsequent notifications are processed exactly
as they would be from that updated state. -/
theorem claim_C1 (pull : String → Except String Unit) (e : String)
    (st : DumpState) (dumpPath origPath : String) (rest : List Message)
    (h : pull dumpPath = .error e) :
    scp_transfer (pull dumpPath) = some e ∧
    processMsgs pull st
        (⟨some ⟨some (dumpPath, origPath), none, false⟩⟩ :: rest)
      = processMsgs pull
          { st with fileDict := (dictInsert st.fileDict
              (basename dumpPath) (extract_path origPath)) }
          rest := by
  constructor
  · rw [h]; rfl
  · simp [processMsgs, on_message]

/-- Witness for claim C1: a concrete failing pull, one further
notification after the failed one, starting from the empty state. -/
theorem claim_C1_witness :
    (fun _ => (Except.error "refused" : Except String Unit)) "/a/X.app/b"
        = .error "refused" ∧
    (scp_transfer ((fun _ => (Except.error "refused" :
          Except String Unit)) "/a/X.app/b") = some "refused" ∧
      processMsgs (fun _ => Except.error "refused") ⟨[], false⟩
          (⟨some ⟨some ("/a/X.app/b", "/a/X.app/b"), none, false⟩⟩ ::
            [doneMsg])
        = processMsgs (fun _ => Except.error "refused")
            { fileDict := dictInsert [] (basename "/a/X.app/b")
                (extract_path "/a/X.app/b"), finished := false }
            [doneMsg]) :=
  ⟨rfl, claim_C1 (fun _ => Except.error "refused") "refused" ⟨[], false⟩
    "/a/X.app/b" "/a/X.app/b" [doneMsg] rfl⟩

-- Claim C2: the two-file scenario and the sentinel entry.

/-- Counterexample to claim C2 as stated: after the scenario
`[bundle Foo.app, binary Foo.plist, done]` with all pulls succeeding,
the path mapping table has no key `Foo.app` at all; the sentinel entry
is the key `app` with value `Foo.app`, not `Foo.app -> app` as the
claim states. -/
theorem claim_C2_counterexample :
    dictLookup (processMsgs allOkPull ⟨[], false⟩
        [fooBundleMsg, fooBinaryMsg, doneMsg]).fileDict "Foo.app"
      = none ∧
    dictLookup (processMsgs allOkPull ⟨[], false⟩
        [fooBundleMsg, fooBinaryMsg, doneMsg]).fileDict "app"
      = some "Foo.app" := by
  decide

/-- Claim C2, amended: processing the scenario leaves the path mapping
table equal to `[(app, Foo.app), (Foo.plist, Foo.plist)]` — the bundle
notification registers the sentinel entry with KEY `app` and VALUE
`basename(path)` (the inverse orientation of the claim) — the
completion flag set, and the assembler then moves `Foo.plist` into
`Foo.app/Foo.plist` under the staging directory, zipping and removing
the staging directory on success. -/
theorem claim_C2 :
    processMsgs allOkPull ⟨[], false⟩ [fooBundleMsg, fooBinaryMsg, doneMsg]
      = ⟨[("app", "Foo.app"), ("Foo.plist", "Foo.plist")], true⟩ ∧
    generate_ipa (fun _ _ => true) true "/tmp/Payload"
        [("app", "Foo.app"), ("Foo.plist", "Foo.plist")]
      = ⟨[("/tmp/Payload/Foo.plist", "/tmp/Payload/Foo.app/Foo.plist")],
          true, true, false⟩ := by
  decide

-- Claim C3: assembly with the sentinel key absent.

/-- Claim C3: when the sentinel key `app` is absent from the path
mapping table, `generate_ipa` takes its `except` branch immediately
(`KeyError`): the exception is caught and logged, no move is performed,
no archive is produced, the staging directory is not removed, and the
completion flag is set defensively. -/
theorem claim_C3 (moveOk : String → String → Bool) (zipOk : Bool)
    (path : String) (st : DumpState)
    (h : dictLookup st.fileDict "app" = none) :
    generate_ipa moveOk zipOk path st.fileDict
        = ⟨[], false, false, true⟩ ∧
    (runStep st (.assemble moveOk zipOk path)).finished = true := by
  have hg : generate_ipa moveOk zipOk path st.fileDict
      = ⟨[], false, false, true⟩ := by
    unfold generate_ipa
    rw [h]
  refine ⟨hg, ?_⟩
  simp [runStep, hg]

/-- Witness for claim C3: a table holding only a leaf file entry and no
sentinel key. -/
theorem claim_C3_witness :
    dictLookup [("Foo.plist", "Foo.plist")] "app" = none ∧
    (generate_ipa (fun _ _ => true) true "/tmp/Payload"
          [("Foo.plist", "Foo.plist")]
        = ⟨[], false, false, true⟩ ∧
      (runStep ⟨[("Foo.plist", "Foo.plist")], false⟩
          (.assemble (fun _ _ => true) true "/tmp/Payload")).finished
        = true) :=
  ⟨by decide, claim_C3 (fun _ _ => true) true "/tmp/Payload"
    ⟨[("Foo.plist", "Foo.plist")], false⟩ (by decide)⟩

-- Claim C5: last-match-wins target resolution.

/-- Claim C5: when two or more descriptors match the target by bundle
identifier or display name, the scan of `open_target_app` selects the
last matching descriptor in enumeration order: its pid, display name
and bundle identifier are the values resolved. (The selection is a
pure function of the enumeration list, hence deterministic for a fixed
enumeration order.) -/
theorem claim_C5 (apps : List AppDescriptor) (t : String)
    (a : AppDescriptor)
    (_hdup : 2 ≤ (apps.filter
      (fun x => decide (t = x.identifier ∨ t = x.name))).length)
    (hlast : lastMatch t apps = some a) :
    selectApp apps t = (some a.pid, a.name, a.identifier) := by
  rw [selectApp_eq_lastMatch, hlast]

/-- Witness for claim C5: two descriptors named `Foo`; the second one
(pid 42, identifier `com.foo2`) is selected. -/
theorem claim_C5_witness :
    2 ≤ (([⟨0, "Foo", "com.foo"⟩, ⟨42, "Foo", "com.foo2"⟩,
        ⟨7, "Bar", "com.bar"⟩] : List AppDescriptor).filter
      (fun x => decide ("Foo" = x.identifier ∨ "Foo" = x.name))).length ∧
    selectApp [⟨0, "Foo", "com.foo"⟩, ⟨42, "Foo", "com.foo2"⟩,
        ⟨7, "Bar", "com.bar"⟩] "Foo"
      = (some 42, "Foo", "com.foo2") :=
  ⟨by decide,
    claim_C5 [⟨0, "Foo", "com.foo"⟩, ⟨42, "Foo", "com.foo2"⟩,
      ⟨7, "Bar", "com.bar"⟩] "Foo" ⟨42, "Foo", "com.foo2"⟩
      (by decide) (by decide)⟩

-- Claim C6: the progress baseline reset.

/-- Claim C6: when a transfer fully completes (`sent = size`), the
`progress` closure stores `0` as the new `last_sent` baseline, so every
first callback of a subsequent transfer displays its own `sent` value
un-offset by the previous transfer totals. -/
theorem claim_C6 (size sent last_sent : Int) (h : sent = size) :
    (progress size sent last_sent).2 = 0 ∧
    ∀ size2 sent2 : Int,
      (progress size2 sent2 (progress size sent last_sent).2).1 = sent2 := by
  constructor
  · simp [progress, h]
  · intro size2 sent2
    simp [progress, h]

/-- Witness for claim C6: a transfer of 100 bytes completes with
baseline 30; the stored baseline becomes 0 and the next transfer shows
its own 10 bytes. -/
theorem claim_C6_witness :
    (progress 100 100 30).2 = 0 ∧
    (progress 50 10 (progress 100 100 30).2).1 = 10 :=
  ⟨(claim_C6 100 100 30 rfl).1, (claim_C6 100 100 30 rfl).2 50 10⟩

-- Claim C7: monotonicity of the completion signal.

/-- Claim C7: the completion signal is monotonic — once `FINISHED` is
set, any further sequence of run events (notifications, assembly runs,
process end) leaves it set: additional sets are idempotent and no
operation clears it. -/
theorem claim_C7 (st : DumpState) (evs : List RunEvent)
    (h : st.finished = true) : (runSteps st evs).finished = true := by
  induction evs generalizing st with
  | nil => exact h
  | cons ev rest ih =>
    exact ih (runStep st ev) (runStep_finished_mono st ev h)

/-- Witness for claim C7: a state with the flag set, run through a
completed notification, a failing assembly and process end. -/
theorem claim_C7_witness :
    (runSteps ⟨[], true⟩
        [.notify allOkPull doneMsg,
          .assemble (fun _ _ => true) true "/tmp/Payload",
          .processEnd]).finished = true :=
  claim_C7 ⟨[], true⟩
    [.notify allOkPull doneMsg,
      .assemble (fun _ _ => true) true "/tmp/Payload",
      .processEnd] rfl

-- Claim C8: spawn and attach failures surface as a null session.

/-- Claim C8: whenever the `try` block of `open_target_app` raises
during spawn or attach, the exception is caught (the embedding is a
total function: nothing propagates to the caller) and the returned
triple carries a null session together with the resolved display name
and bundle identifier. -/
theorem claim_C8 {σ : Type} (spawn : String → Except String Nat)
    (attach : Nat → Except String σ) (apps : List AppDescriptor)
    (app_id : String)
    (h : spawnAttachFails spawn attach (selectApp apps app_id).1
      (selectApp apps app_id).2.2 = true) :
    open_target_app spawn attach apps app_id
      = (none, (selectApp apps app_id).2.1,
          (selectApp apps app_id).2.2) := by
  unfold open_target_app
  unfold spawnAttachFails at h
  by_cases hp : pidTruthy (selectApp apps app_id).1
  · simp only [hp, if_true] at h ⊢
    cases hat : attach ((selectApp apps app_id).1.getD 0) with
    | ok s => rw [hat] at h; simp at h
    | error e => rfl
  · simp only [hp, Bool.false_eq_true, if_false] at h ⊢
    cases hsp : spawn (selectApp apps app_id).2.2 with
    | error e => rfl
    | ok p =>
      rw [hsp] at h
      dsimp only at h ⊢
      cases hat : attach p with
      | ok s => rw [hat] at h; simp at h
      | error e => rfl

/-- Witness for claim C8: a device whose attach call raises for the
running target `Bar` (pid 7); the result is a null session with the
resolved name and identifier. -/
theorem claim_C8_witness :
    spawnAttachFails (σ := Nat) (fun _ => .ok 1) (fun _ => .error "attach")
        (selectApp [⟨7, "Bar", "com.bar"⟩] "Bar").1
        (selectApp [⟨7, "Bar", "com.bar"⟩] "Bar").2.2 = true ∧
    open_target_app (σ := Nat) (fun _ => .ok 1) (fun _ => .error "attach")
        [⟨7, "Bar", "com.bar"⟩] "Bar"
      = (none, (selectApp [⟨7, "Bar", "com.bar"⟩] "Bar").2.1,
          (selectApp [⟨7, "Bar", "com.bar"⟩] "Bar").2.2) :=
  ⟨by decide,
    claim_C8 (σ := Nat) (fun _ => .ok 1) (fun _ => .error "attach")
      [⟨7, "Bar", "com.bar"⟩] "Bar" (by decide)⟩

-- Claim C10: an unmatched target spawns the empty bundle identifier.

/-- Claim C10: when no application descriptor matches the target, the
resolved pid is falsy and the bundle identifier is the empty string, so
`open_target_app` attempts `spawn` on the empty bundle identifier;
given that this spawn raises, the exception is caught and the function
returns `(none, empty, empty)` — indistinguishable from any other
spawn failure. -/
theorem claim_C10 {σ : Type} (spawn : String → Except String Nat)
    (attach : Nat → Except String σ) (apps : List AppDescriptor)
    (app_id : String) (e : String)
    (hnm : lastMatch app_id apps = none)
    (hsp : spawn "" = .error e) :
    open_target_app spawn attach apps app_id = (none, "", "") := by
  have hsel : selectApp apps app_id = (none, "", "") := by
    rw [selectApp_eq_lastMatch, hnm]
  unfold open_target_app
  rw [hsel]
  simp [pidTruthy, hsp]

/-- Witness for claim C10: the target `nope` matches nothing in a
one-element enumeration and spawning the empty identifier raises. -/
theorem claim_C10_witness :
    lastMatch "nope" [(⟨7, "Bar", "com.bar"⟩ : AppDescriptor)] = none ∧
    (fun s => if s = "" then (Except.error "unable to launch" :
        Except String Nat) else .ok 1) "" = .error "unable to launch" ∧
    open_target_app (σ := Nat)
        (fun s => if s = "" then .error "unable to launch" else .ok 1)
        (fun p => .ok p) [⟨7, "Bar", "com.bar"⟩] "nope"
      = (none, "", "") :=
  ⟨by decide, rfl,
    claim_C10 (σ := Nat)
      (fun s => if s = "" then .error "unable to launch" else .ok 1)
      (fun p => .ok p) [⟨7, "Bar", "com.bar"⟩] "nope" "unable to launch"
      (by decide) rfl⟩
